import Mathlib

/-!
Shallow embedding of `src/app.py` (Traffic Violations Insight Dashboard).

The app loads a table of violation records, derives a `Time Bucket` column
from `Stop Hour` via `pd.cut`, builds a boolean row mask out of a date-range
filter and four categorical multiselect filters, and renders views of the
filtered table (top-10 `value_counts` aggregations, a 200-row preview, and a
full CSV export).  Tables are modelled as `List Row`, missing values as
`none`, and the pandas operations involved are translated pointwise below.
-/

namespace TrafficViolations

/-- Raw cell of the `"Date Of Stop"` column before `pd.to_datetime` runs:
either a parseable timestamp (abstracted to its integer position on the
timeline), a malformed (unparseable) string, or a missing value. -/
inductive DateCell where
  | valid (d : Int)
  | malformed
  | missing
deriving DecidableEq, Repr

/-- `pd.to_datetime(df["Date Of Stop"], errors="coerce")` (src/app.py line 28):
parseable values become timestamps; with `errors="coerce"` anything
unparseable becomes `NaT` (modelled `none`) instead of raising. -/
def toDatetimeCoerce : DateCell → Option Int
  | .valid d => some d
  | .malformed => none
  | .missing => none

/-- `pd.cut(df["Stop Hour"], bins=[0, 6, 12, 18, 24], labels=["Night",
"Morning", "Afternoon", "Evening"], include_lowest=True)` (src/app.py lines
31-36).  `pd.cut` bins with right-closed intervals by default (`right=True`),
and `include_lowest=True` additionally closes the first interval on the left,
so the four bins are `[0,6]`, `(6,12]`, `(12,18]`, `(18,24]`; values outside
all bins get no bucket (`NaN`, modelled `none`). -/
def timeBucket (h : Int) : Option String :=
  if 0 ≤ h ∧ h ≤ 6 then some "Night"
  else if 6 < h ∧ h ≤ 12 then some "Morning"
  else if 12 < h ∧ h ≤ 18 then some "Afternoon"
  else if 18 < h ∧ h ≤ 24 then some "Evening"
  else none

/-- One violation record (one row of the loaded parquet table), with the
columns src/app.py touches.  Categorical/string columns are `Option` valued:
`none` models a pandas null (`NaN`). -/
structure Row where
  dateOfStop : DateCell
  stopHour : Int
  vehicleTypeCategory : Option String
  gender : Option String
  race : Option String
  violationType : Option String
  make : Option String
  description : Option String
  accident : Bool
  location : Option String
deriving DecidableEq, Repr

/-- The `"Date Of Stop"` value of a row after the line-28 conversion. -/
def Row.date (r : Row) : Option Int := toDatetimeCoerce r.dateOfStop

/-- The derived `"Time Bucket"` value of a row (src/app.py lines 31-36). -/
def Row.bucket (r : Row) : Option String := timeBucket r.stopHour

/-- `Series.between(lo, hi)` on the datetime column: inclusive on both ends;
a null (`NaT`) compares `False`. -/
def betweenOpt (d : Option Int) (lo hi : Int) : Bool :=
  match d with
  | none => false
  | some x => decide (lo ≤ x) && decide (x ≤ hi)

/-- `Series.isin(sel)` on a categorical column at one cell: a null never
matches (the selectable options are built with `dropna()`, so `sel` holds
only real values). -/
def isinOpt (v : Option String) (sel : List String) : Bool :=
  match v with
  | none => false
  | some s => sel.contains s

/-- The user's sidebar state: the chosen date range and the selected sets of
the four multiselects (src/app.py lines 44-79). -/
structure Selection where
  dateLo : Int
  dateHi : Int
  vehicles : List String
  genders : List String
  races : List String
  violations : List String
deriving DecidableEq, Repr

/-- The boolean row mask of src/app.py lines 84-93: the conjunction of the
date-range test and the four `isin` membership tests. -/
def rowPred (sel : Selection) (r : Row) : Bool :=
  betweenOpt r.date sel.dateLo sel.dateHi &&
  isinOpt r.vehicleTypeCategory sel.vehicles &&
  isinOpt r.gender sel.genders &&
  isinOpt r.race sel.races &&
  isinOpt r.violationType sel.violations

/-- `filtered_df` (src/app.py lines 84-93): the rows of `df` whose mask bit
is set, in their original order. -/
def filteredDf (rows : List Row) (sel : Selection) : List Row :=
  rows.filter (rowPred sel)

/-- Distinct values of a list in order of first occurrence, as
`Series.unique()` returns them (`seen` accumulates values already emitted). -/
def uniquesAux (seen : List String) : List String → List String
  | [] => []
  | x :: xs => if x ∈ seen then uniquesAux seen xs else x :: uniquesAux (x :: seen) xs

/-- `Series.unique()`: distinct values in order of first occurrence. -/
def uniques (l : List String) : List String := uniquesAux [] l

/-- Lexicographic ≤ on code-point lists, as Python compares strings. -/
def charListLe : List Char → List Char → Bool
  | [], _ => true
  | _ :: _, [] => false
  | c :: cs, d :: ds => if c < d then true else if d < c then false else charListLe cs ds

/-- Lexicographic ≤ on strings, as Python's `sorted` compares them. -/
def strLe (s t : String) : Bool := charListLe s.data t.data

/-- Insert a string into an already ascending list (helper of `sortStr`). -/
def insertStr (s : String) : List String → List String
  | [] => [s]
  | t :: ts => if strLe s t then s :: t :: ts else t :: insertStr s ts

/-- `sorted(...)` on a list of strings (insertion sort, ascending). -/
def sortStr : List String → List String
  | [] => []
  | s :: ss => insertStr s (sortStr ss)

/-- `sorted(df[col].dropna().unique())` (src/app.py lines 50, 58, 66, 74):
the option list offered by one multiselect, which is also its default
(everything selected). -/
def availableOptions (f : Row → Option String) (rows : List Row) : List String :=
  sortStr (uniques (rows.filterMap f))

/-- Smallest element of a list of timestamps, `none` on the empty list
(`Series.min()` skips nulls; the input here is the already null-free list). -/
def listMin : List Int → Option Int
  | [] => none
  | x :: xs =>
    match listMin xs with
    | none => some x
    | some m => some (min x m)

/-- Largest element of a list of timestamps, `none` on the empty list. -/
def listMax : List Int → Option Int
  | [] => none
  | x :: xs =>
    match listMax xs with
    | none => some x
    | some m => some (max x m)

/-- The non-null stop dates of a table. -/
def stopDates (rows : List Row) : List Int := rows.filterMap Row.date

/-- `df["Date Of Stop"].min()` (src/app.py line 46): nulls are skipped. -/
def minStopDate (rows : List Row) : Option Int := listMin (stopDates rows)

/-- `df["Date Of Stop"].max()` (src/app.py line 46): nulls are skipped. -/
def maxStopDate (rows : List Row) : Option Int := listMax (stopDates rows)

/-- The sidebar state in which every multiselect keeps its default (all
available options selected) and the date range is `[lo, hi]`. -/
def fullSelection (rows : List Row) (lo hi : Int) : Selection :=
  { dateLo := lo
    dateHi := hi
    vehicles := availableOptions Row.vehicleTypeCategory rows
    genders := availableOptions Row.gender rows
    races := availableOptions Row.race rows
    violations := availableOptions Row.violationType rows }

/-- The (value, frequency) pairs of a column in first-occurrence order,
nulls dropped — the content of `Series.value_counts()` before it sorts. -/
def countPairs (col : List (Option String)) : List (String × Nat) :=
  let vals := col.filterMap id
  (uniques vals).map (fun k => (k, vals.count k))

/-- Insert a pair into a list already sorted by count descending, after every
element of count ≥ its own (helper of `sortByCountDesc`). -/
def insertByCount (p : String × Nat) : List (String × Nat) → List (String × Nat)
  | [] => [p]
  | q :: qs => if q.2 ≤ p.2 then p :: q :: qs else q :: insertByCount p qs

/-- Stable insertion sort by count, descending: pairs with equal counts keep
their input order. -/
def sortByCountDesc : List (String × Nat) → List (String × Nat)
  | [] => []
  | p :: ps => insertByCount p (sortByCountDesc ps)

/-- `Series.value_counts()` (src/app.py lines 126-131, 165-170): drop nulls,
count each distinct value, and order by count descending; values with equal
counts stay in first-occurrence order. -/
def valueCounts (col : List (Option String)) : List (String × Nat) :=
  sortByCountDesc (countPairs col)

/-- `top_makes` (src/app.py lines 126-131): `value_counts` of the `Make`
column of the filtered table, truncated by `.head(10)`. -/
def topMakes (rows : List Row) : List (String × Nat) :=
  (valueCounts (rows.map Row.make)).take 10

/-- `top_violations` (src/app.py lines 165-170): `value_counts` of the
`Description` column of the filtered table, truncated by `.head(10)`. -/
def topViolations (rows : List Row) : List (String × Nat) :=
  (valueCounts (rows.map Row.description)).take 10

/-- Sorted by count in descending order: each count is ≥ the next one. -/
def SortedCountDesc (l : List (String × Nat)) : Prop :=
  List.Chain' (fun p q : String × Nat => q.2 ≤ p.2) l

/-- Render an optional string cell for the CSV (null becomes empty). -/
def optStrCsv : Option String → String
  | none => ""
  | some s => s

/-- Render an optional timestamp cell for the CSV (null becomes empty). -/
def optIntCsv : Option Int → String
  | none => ""
  | some d => toString d

/-- One CSV data line for a row (`index=False`, so no index column). -/
def rowToCsv (r : Row) : String :=
  String.intercalate ","
    [optIntCsv r.date, toString r.stopHour, optStrCsv r.bucket,
     optStrCsv r.vehicleTypeCategory, optStrCsv r.gender, optStrCsv r.race,
     optStrCsv r.violationType, optStrCsv r.make, optStrCsv r.description,
     toString r.accident, optStrCsv r.location]

/-- The CSV header line (`to_csv` writes the header by default). -/
def csvHeader : String :=
  String.intercalate ","
    ["Date Of Stop", "Stop Hour", "Time Bucket", "VehicleType_Category",
     "Gender", "Race", "Violation Type", "Make", "Description", "Accident",
     "Location"]

/-- `filtered_df.to_csv(index=False)` (src/app.py line 208), as its list of
lines: the header followed by one data line per filtered row. -/
def toCsvLines (rows : List Row) : List String :=
  csvHeader :: rows.map rowToCsv

/-- `filtered_df.head(200)` (src/app.py line 204): the rendered preview. -/
def previewRows (rows : List Row) : List Row := rows.take 200

/-! ### Helper lemmas -/

theorem isinOpt_nil (v : Option String) : isinOpt v [] = false := by
  cases v <;> rfl

theorem mem_uniquesAux_of (a : String) (l : List String) :
    ∀ seen, a ∈ l → a ∉ seen → a ∈ uniquesAux seen l := by
  induction l with
  | nil => intro seen h _; exact absurd h (List.not_mem_nil a)
  | cons x xs ih =>
    intro seen hal has
    rcases List.mem_cons.mp hal with h | h
    · subst h
      rw [uniquesAux, if_neg has]
      exact List.mem_cons_self _ _
    · by_cases hx : x ∈ seen
      · rw [uniquesAux, if_pos hx]
        exact ih seen h has
      · rw [uniquesAux, if_neg hx]
        by_cases hax : a = x
        · exact hax ▸ List.mem_cons_self _ _
        · refine List.mem_cons_of_mem _ (ih (x :: seen) h ?_)
          intro hc
          exact (List.mem_cons.mp hc).elim hax has

theorem mem_uniques_of (a : String) (l : List String) (h : a ∈ l) : a ∈ uniques l :=
  mem_uniquesAux_of a l [] h (List.not_mem_nil a)

theorem mem_insertStr_of (a s : String) (l : List String) (h : a = s ∨ a ∈ l) :
    a ∈ insertStr s l := by
  induction l with
  | nil =>
    rcases h with h | h
    · exact h ▸ List.mem_cons_self _ _
    · exact absurd h (List.not_mem_nil a)
  | cons t ts ih =>
    rw [insertStr]
    by_cases hle : strLe s t = true
    · rw [if_pos hle]
      rcases h with h | h
      · exact h ▸ List.mem_cons_self _ _
      · exact List.mem_cons_of_mem _ h
    · rw [if_neg hle]
      rcases h with h | h
      · exact List.mem_cons_of_mem _ (ih (Or.inl h))
      · rcases List.mem_cons.mp h with h' | h'
        · exact h' ▸ List.mem_cons_self _ _
        · exact List.mem_cons_of_mem _ (ih (Or.inr h'))

theorem mem_sortStr_of (a : String) (l : List String) (h : a ∈ l) : a ∈ sortStr l := by
  induction l with
  | nil => exact absurd h (List.not_mem_nil a)
  | cons s ss ih =>
    rw [sortStr]
    rcases List.mem_cons.mp h with h' | h'
    · exact mem_insertStr_of a s (sortStr ss) (Or.inl h')
    · exact mem_insertStr_of a s (sortStr ss) (Or.inr (ih h'))

theorem mem_availableOptions_of (f : Row → Option String) (rows : List Row) (r : Row)
    (v : String) (hr : r ∈ rows) (hv : f r = some v) : v ∈ availableOptions f rows := by
  refine mem_sortStr_of _ _ (mem_uniques_of _ _ ?_)
  exact List.mem_filterMap.mpr ⟨r, hr, hv⟩

theorem listMin_eq_none (l : List Int) (h : listMin l = none) : l = [] := by
  cases l with
  | nil => rfl
  | cons x xs =>
    rw [listMin] at h
    cases hxs : listMin xs <;> rw [hxs] at h <;> exact absurd h (by simp)

theorem listMax_eq_none (l : List Int) (h : listMax l = none) : l = [] := by
  cases l with
  | nil => rfl
  | cons x xs =>
    rw [listMax] at h
    cases hxs : listMax xs <;> rw [hxs] at h <;> exact absurd h (by simp)

theorem listMin_le (l : List Int) (m x : Int) (hm : listMin l = some m) (hx : x ∈ l) :
    m ≤ x := by
  induction l generalizing m with
  | nil => exact absurd hx (List.not_mem_nil x)
  | cons y ys ih =>
    rw [listMin] at hm
    cases hys : listMin ys <;> rw [hys] at hm
    · have : ys = [] := listMin_eq_none ys hys
      subst this
      rcases List.mem_cons.mp hx with h | h
      · subst h; exact le_of_eq (Option.some.inj hm).symm
      · exact absurd h (List.not_mem_nil x)
    · rename_i k
      have hmk : m = min y k := (Option.some.inj hm).symm
      rcases List.mem_cons.mp hx with h | h
      · rw [h, hmk]; exact min_le_left y k
      · exact hmk ▸ le_trans (min_le_right y k) (ih k hys h)

theorem le_listMax (l : List Int) (m x : Int) (hm : listMax l = some m) (hx : x ∈ l) :
    x ≤ m := by
  induction l generalizing m with
  | nil => exact absurd hx (List.not_mem_nil x)
  | cons y ys ih =>
    rw [listMax] at hm
    cases hys : listMax ys <;> rw [hys] at hm
    · have : ys = [] := listMax_eq_none ys hys
      subst this
      rcases List.mem_cons.mp hx with h | h
      · subst h; exact le_of_eq (Option.some.inj hm)
      · exact absurd h (List.not_mem_nil x)
    · rename_i k
      have hmk : m = max y k := (Option.some.inj hm).symm
      rcases List.mem_cons.mp hx with h | h
      · rw [h, hmk]; exact le_max_left y k
      · exact hmk ▸ le_trans (ih k hys h) (le_max_right y k)

theorem insertByCount_head? (p : String × Nat) (l : List (String × Nat)) :
    (insertByCount p l).head? = some p ∨ (insertByCount p l).head? = l.head? := by
  cases l with
  | nil => exact Or.inl rfl
  | cons q qs =>
    rw [insertByCount]
    by_cases h : q.2 ≤ p.2
    · rw [if_pos h]; exact Or.inl rfl
    · rw [if_neg h]; exact Or.inr rfl

theorem sortedCountDesc_insertByCount (p : String × Nat) (l : List (String × Nat))
    (h : SortedCountDesc l) : SortedCountDesc (insertByCount p l) := by
  induction l with
  | nil => exact List.chain'_singleton p
  | cons q qs ih =>
    rw [insertByCount]
    by_cases hq : q.2 ≤ p.2
    · rw [if_pos hq]
      exact List.chain'_cons.mpr ⟨hq, h⟩
    · rw [if_neg hq]
      have htail : SortedCountDesc (insertByCount p qs) := ih (h.tail)
      refine List.chain'_cons'.mpr ⟨?_, htail⟩
      intro hd hhd
      rcases insertByCount_head? p qs with he | he
      · rw [he] at hhd
        cases hhd
        exact le_of_lt (lt_of_not_le hq)
      · rw [he] at hhd
        exact (List.chain'_cons'.mp h).1 hd hhd

theorem sortedCountDesc_sortByCountDesc (l : List (String × Nat)) :
    SortedCountDesc (sortByCountDesc l) := by
  induction l with
  | nil => exact List.chain'_nil
  | cons p ps ih => exact sortedCountDesc_insertByCount p (sortByCountDesc ps) ih

theorem filter_insertByCount (p : String × Nat) (l : List (String × Nat)) (c : Nat) :
    (insertByCount p l).filter (fun q => q.2 == c) =
      if p.2 = c then p :: l.filter (fun q => q.2 == c)
      else l.filter (fun q => q.2 == c) := by
  induction l with
  | nil =>
    rw [insertByCount]
    by_cases hp : p.2 = c <;> simp [List.filter_cons, hp]
  | cons q qs ih =>
    rw [insertByCount]
    by_cases hq : q.2 ≤ p.2
    · rw [if_pos hq]
      by_cases hp : p.2 = c <;> by_cases hqc : q.2 = c <;>
        simp [List.filter_cons, hp, hqc]
    · rw [if_neg hq]
      by_cases hp : p.2 = c <;> by_cases hqc : q.2 = c

      · exact absurd (le_of_eq (hqc.trans hp.symm)) hq
      · simp [List.filter_cons, hp, hqc, ih]
      · simp [List.filter_cons, hp, hqc, ih]
      · simp [List.filter_cons, hp, hqc, ih]

theorem filter_sortByCountDesc (l : List (String × Nat)) (c : Nat) :
    (sortByCountDesc l).filter (fun q => q.2 == c) = l.filter (fun q => q.2 == c) := by
  induction l with
  | nil => rfl
  | cons p ps ih =>
    rw [sortByCountDesc, filter_insertByCount]
    by_cases hp : p.2 = c <;> simp [List.filter_cons, hp, ih]

example : timeBucket 6 = some "Night" := by decide
example : timeBucket 0 = some "Night" := by decide
example : timeBucket 12 = some "Morning" := by decide
example : timeBucket 24 = some "Evening" := by decide
example : timeBucket 25 = none := by decide
example : uniques ["b", "a", "b", "c"] = ["b", "a", "c"] := by decide
example : sortStr ["b", "c", "a"] = ["a", "b", "c"] := by decide
example : valueCounts [some "a", some "b", none, some "b"] = [("b", 2), ("a", 1)] := by decide

/-! ### Sample rows used by witnesses and counterexamples -/

/-- A fully populated sample row (stop date at timeline position 5). -/
def sampleRow : Row :=
  { dateOfStop := .valid 5
    stopHour := 3
    vehicleTypeCategory := some "Car"
    gender := some "M"
    race := some "WHITE"
    violationType := some "Citation"
    make := some "FORD"
    description := some "SPEED"
    accident := false
    location := some "L1" }

/-- A fully populated sample row (stop date at timeline position 10). -/
def fullRow : Row := { sampleRow with dateOfStop := .valid 10 }

/-- Like `fullRow` but with a null `Gender` cell. -/
def nullGenderRow : Row := { fullRow with gender := none }

/-- Like `sampleRow` but with a malformed `Date Of Stop` string. -/
def malformedDateRow : Row := { sampleRow with dateOfStop := .malformed }

/-! ### The claims -/

/-- Claim C1, counterexample: the claim says hours in `[6,12)` map to Morning
and boundary hour 6 maps to Morning, but the code (`pd.cut` with its default
right-closed bins) puts hour 6 in the Night bucket. -/
theorem c1_lower_inclusive_counterexample :
    timeBucket 6 = some "Night" ∧ timeBucket 6 ≠ some "Morning" := by decide

/-- Claim C1, amended: the derived time bucket is the total function of stop
hour with upper-bound-inclusive (right-closed) boundaries, the first bin also
closed at 0: hours in `[0,6]` map to Night, `(6,12]` to Morning, `(12,18]` to
Afternoon, `(18,24]` to Evening; the boundary hours 0, 6, 12, 18, 24 map to
Night, Night, Morning, Afternoon, Evening respectively. -/
theorem c1_time_bucket_right_closed :
    (∀ h : Int, 0 ≤ h → h ≤ 6 → timeBucket h = some "Night") ∧
    (∀ h : Int, 6 < h → h ≤ 12 → timeBucket h = some "Morning") ∧
    (∀ h : Int, 12 < h → h ≤ 18 → timeBucket h = some "Afternoon") ∧
    (∀ h : Int, 18 < h → h ≤ 24 → timeBucket h = some "Evening") ∧
    timeBucket 0 = some "Night" ∧ timeBucket 6 = some "Night" ∧
    timeBucket 12 = some "Morning" ∧ timeBucket 18 = some "Afternoon" ∧
    timeBucket 24 = some "Evening" := by
  refine ⟨?_, ?_, ?_, ?_, by decide, by decide, by decide, by decide, by decide⟩
  · intro h h1 h2
    rw [timeBucket, if_pos ⟨h1, h2⟩]
  · intro h h1 h2
    rw [timeBucket, if_neg (by omega), if_pos ⟨h1, h2⟩]
  · intro h h1 h2
    rw [timeBucket, if_neg (by omega), if_neg (by omega), if_pos ⟨h1, h2⟩]
  · intro h h1 h2
    rw [timeBucket, if_neg (by omega), if_neg (by omega), if_neg (by omega),
      if_pos ⟨h1, h2⟩]

/-- Claim C1, witness: the amended bucket map evaluated at hour 7. -/
theorem c1_time_bucket_right_closed_witness :
    (6 : Int) < 7 ∧ (7 : Int) ≤ 12 ∧ timeBucket 7 = some "Morning" :=
  ⟨by decide, by decide, c1_time_bucket_right_closed.2.1 7 (by decide) (by decide)⟩

/-- Claim C2, counterexample: with every available option of every
multiselect selected and the date range spanning the minimum to the maximum
stop date, a row holding a null in a categorical filter column (here
`Gender`) is still dropped, so the filtered table does not equal the
unfiltered table. -/
theorem c2_full_selection_counterexample :
    minStopDate [fullRow, nullGenderRow] = some 10 ∧
    maxStopDate [fullRow, nullGenderRow] = some 10 ∧
    filteredDf [fullRow, nullGenderRow]
        (fullSelection [fullRow, nullGenderRow] 10 10) ≠ [fullRow, nullGenderRow] := by
  decide

/-- Claim C2, amended: the filtered row count never exceeds the unfiltered
row count; and when every available option of every multiselect is selected
and the date range spans the minimum to the maximum stop date, the filtered
table equals the unfiltered table exactly, provided every row has a parseable
stop date and non-null values in the four categorical filter columns. -/
theorem c2_filter_shrinks_and_full_selection_is_identity
    (rows : List Row) (sel : Selection) :
    (filteredDf rows sel).length ≤ rows.length ∧
    (∀ lo hi : Int, minStopDate rows = some lo → maxStopDate rows = some hi →
      (∀ r ∈ rows, r.date.isSome ∧ r.vehicleTypeCategory.isSome ∧
        r.gender.isSome ∧ r.race.isSome ∧ r.violationType.isSome) →
      filteredDf rows (fullSelection rows lo hi) = rows) := by
  constructor
  · exact List.length_filter_le _ rows
  · intro lo hi hlo hhi hnn
    apply List.filter_eq_self.mpr
    intro r hr
    obtain ⟨hd, hv, hg, hra, hvi⟩ := hnn r hr
    obtain ⟨d, hd⟩ := Option.isSome_iff_exists.mp hd
    obtain ⟨v, hv⟩ := Option.isSome_iff_exists.mp hv
    obtain ⟨g, hg⟩ := Option.isSome_iff_exists.mp hg
    obtain ⟨ra, hra⟩ := Option.isSome_iff_exists.mp hra
    obtain ⟨vi, hvi⟩ := Option.isSome_iff_exists.mp hvi
    have hdmem : d ∈ stopDates rows := List.mem_filterMap.mpr ⟨r, hr, hd⟩
    have h1 : lo ≤ d := listMin_le _ _ _ hlo hdmem
    have h2 : d ≤ hi := le_listMax _ _ _ hhi hdmem
    have hv2 : v ∈ availableOptions Row.vehicleTypeCategory rows :=
      mem_availableOptions_of _ rows r v hr hv
    have hg2 : g ∈ availableOptions Row.gender rows :=
      mem_availableOptions_of _ rows r g hr hg
    have hra2 : ra ∈ availableOptions Row.race rows :=
      mem_availableOptions_of _ rows r ra hr hra
    have hvi2 : vi ∈ availableOptions Row.violationType rows :=
      mem_availableOptions_of _ rows r vi hr hvi
    simp only [rowPred, fullSelection, hd, hv, hg, hra, hvi, betweenOpt, isinOpt,
      Bool.and_eq_true, decide_eq_true_eq]
    exact ⟨⟨⟨⟨⟨h1, h2⟩, List.elem_iff.mpr hv2⟩, List.elem_iff.mpr hg2⟩,
      List.elem_iff.mpr hra2⟩, List.elem_iff.mpr hvi2⟩

/-- Claim C2, witness: a one-row table with no nulls, evaluated at its own
minimum and maximum stop date. -/
theorem c2_filter_shrinks_and_full_selection_is_identity_witness :
    (filteredDf [sampleRow] ⟨0, 9, ["Car"], ["M"], ["WHITE"], ["Citation"]⟩).length ≤
      [sampleRow].length ∧
    filteredDf [sampleRow] (fullSelection [sampleRow] 5 5) = [sampleRow] :=
  ⟨(c2_filter_shrinks_and_full_selection_is_identity [sampleRow]
      ⟨0, 9, ["Car"], ["M"], ["WHITE"], ["Citation"]⟩).1,
   (c2_filter_shrinks_and_full_selection_is_identity [sampleRow]
      ⟨0, 9, ["Car"], ["M"], ["WHITE"], ["Citation"]⟩).2 5 5
     (by decide) (by decide) (by decide)⟩

/-- Claim C3: the row mask is the conjunction (AND) of the date-range test
and the four categorical membership tests, and an empty selected set in any
one of the four multiselects makes the filtered table empty, whatever the
other selections are. -/
theorem c3_empty_multiselect_gives_no_rows (rows : List Row) (sel : Selection)
    (h : sel.vehicles = [] ∨ sel.genders = [] ∨ sel.races = [] ∨ sel.violations = []) :
    (∀ r : Row, rowPred sel r =
        (betweenOpt r.date sel.dateLo sel.dateHi &&
         isinOpt r.vehicleTypeCategory sel.vehicles &&
         isinOpt r.gender sel.genders &&
         isinOpt r.race sel.races &&
         isinOpt r.violationType sel.violations)) ∧
    filteredDf rows sel = [] := by
  refine ⟨fun r => rfl, ?_⟩
  rw [show filteredDf rows sel = rows.filter (rowPred sel) from rfl,
    List.filter_eq_nil_iff]
  intro r hr
  rcases h with h | h | h | h <;> simp [rowPred, h, isinOpt_nil]

/-- Claim C3, witness: an empty Gender selection filters out a row that every
other condition accepts. -/
theorem c3_empty_multiselect_gives_no_rows_witness :
    filteredDf [sampleRow] ⟨0, 9, ["Car"], [], ["WHITE"], ["Citation"]⟩ = [] :=
  (c3_empty_multiselect_gives_no_rows [sampleRow]
    ⟨0, 9, ["Car"], [], ["WHITE"], ["Citation"]⟩ (Or.inr (Or.inl rfl))).2

/-- Claim C4: each top-10 aggregation (`top_makes`, `top_violations`) has at
most 10 rows and is sorted by count descending; the full `value_counts`
output restricted to any fixed count equals the first-occurrence-order count
pairs restricted to that count, i.e. ties are broken by input order. -/
theorem c4_top10_bounded_and_sorted (rows : List Row) :
    (topMakes rows).length ≤ 10 ∧ SortedCountDesc (topMakes rows) ∧
    (∀ c : Nat, (valueCounts (rows.map Row.make)).filter (fun q => q.2 == c) =
        (countPairs (rows.map Row.make)).filter (fun q => q.2 == c)) ∧
    (topViolations rows).length ≤ 10 ∧ SortedCountDesc (topViolations rows) ∧
    (∀ c : Nat, (valueCounts (rows.map Row.description)).filter (fun q => q.2 == c) =
        (countPairs (rows.map Row.description)).filter (fun q => q.2 == c)) := by
  refine ⟨?_, ?_, ?_, ?_, ?_, ?_⟩
  · exact (valueCounts (rows.map Row.make)).length_take_le 10
  · exact (sortedCountDesc_sortByCountDesc (countPairs (rows.map Row.make))).take 10
  · exact fun c => filter_sortByCountDesc (countPairs (rows.map Row.make)) c
  · exact (valueCounts (rows.map Row.description)).length_take_le 10
  · exact (sortedCountDesc_sortByCountDesc (countPairs (rows.map Row.description))).take 10
  · exact fun c => filter_sortByCountDesc (countPairs (rows.map Row.description)) c

/-- Claim C5: a malformed date string is coerced to a null (`none`) by
loading instead of raising, and such a row never appears in the filtered
table, for every chosen date range (and any other selections). -/
theorem c5_malformed_date_coerced_and_excluded (rows : List Row) (sel : Selection)
    (r : Row) (hm : r.dateOfStop = DateCell.malformed) :
    r.date = none ∧ r ∉ filteredDf rows sel := by
  have hd : r.date = none := by rw [Row.date, hm]; rfl
  refine ⟨hd, fun hmem => ?_⟩
  have hpred := (List.mem_filter.mp hmem).2
  simp [rowPred, hd, betweenOpt] at hpred

/-- Claim C5, witness: a concrete row with a malformed date. -/
theorem c5_malformed_date_coerced_and_excluded_witness :
    malformedDateRow.date = none ∧
    malformedDateRow ∉ filteredDf [malformedDateRow]
      ⟨0, 100, ["Car"], ["M"], ["WHITE"], ["Citation"]⟩ :=
  c5_malformed_date_coerced_and_excluded [malformedDateRow]
    ⟨0, 100, ["Car"], ["M"], ["WHITE"], ["Citation"]⟩ malformedDateRow rfl

/-- Claim C6: filtering is idempotent — applying the same selection's filter
to the already-filtered table returns it unchanged. -/
theorem c6_filter_idempotent (rows : List Row) (sel : Selection) :
    filteredDf (filteredDf rows sel) sel = filteredDf rows sel := by
  apply List.filter_eq_self.mpr
  intro r hr
  exact (List.mem_filter.mp hr).2

/-- Claim C7: the CSV export holds exactly the filtered rows — one data line
per filtered row after the single header line — while the rendered preview
holds only the first 200 filtered rows. -/
theorem c7_export_all_preview_200 (rows : List Row) (sel : Selection) :
    (toCsvLines (filteredDf rows sel)).length = (filteredDf rows sel).length + 1 ∧
    (toCsvLines (filteredDf rows sel)).tail = (filteredDf rows sel).map rowToCsv ∧
    previewRows (filteredDf rows sel) = (filteredDf rows sel).take 200 := by
  refine ⟨?_, rfl, rfl⟩
  simp [toCsvLines]

/-- Claim C8: on the stop-hour column `[3, 7, 13, 19]` the derived time
buckets are `[Night, Morning, Afternoon, Evening]`, in that order. -/
theorem c8_example_column_buckets :
    ([3, 7, 13, 19] : List Int).map timeBucket =
      [some "Night", some "Morning", some "Afternoon", some "Evening"] := by decide

/-- Claim C9: a row with a null in any of the four categorical filter columns
is excluded from the filtered table under every possible selection, since a
null never satisfies the `isin` membership test. -/
theorem c9_null_categorical_always_excluded (rows : List Row) (sel : Selection)
    (r : Row)
    (h : r.vehicleTypeCategory = none ∨ r.gender = none ∨ r.race = none ∨
      r.violationType = none) :
    r ∉ filteredDf rows sel := by
  intro hmem
  have hpred := (List.mem_filter.mp hmem).2
  rcases h with h | h | h | h <;> simp [rowPred, h, isinOpt] at hpred

/-- Claim C9, witness: a row with a null Gender cell, with every option of
every multiselect selected and an all-covering date range. -/
theorem c9_null_categorical_always_excluded_witness :
    nullGenderRow ∉ filteredDf [nullGenderRow]
      ⟨0, 100, ["Car"], ["M"], ["WHITE"], ["Citation"]⟩ :=
  c9_null_categorical_always_excluded [nullGenderRow]
    ⟨0, 100, ["Car"], ["M"], ["WHITE"], ["Citation"]⟩ nullGenderRow
    (Or.inr (Or.inl rfl))

/-- Claim C10: the filtered table is an order-preserving subsequence of the
loaded table, and the 200-row preview (as CSV lines) is a prefix of the data
lines of the CSV export. -/
theorem c10_order_preserved_and_preview_prefix_of_export
    (rows : List Row) (sel : Selection) :
    (filteredDf rows sel).Sublist rows ∧
    (previewRows (filteredDf rows sel)).map rowToCsv <+:
      (toCsvLines (filteredDf rows sel)).tail := by
  constructor
  · exact List.filter_sublist rows
  · show ((filteredDf rows sel).take 200).map rowToCsv <+:
      (filteredDf rows sel).map rowToCsv
    rw [List.map_take]
    exact List.take_prefix 200 _

end TrafficViolations
